import Mathlib

/-!
# PlantID-Capstone: shallow embedding of `src/PlantIDApp/App.tsx`

This file embeds the core of the PlantID app (a single React Native
component) as pure Lean functions over an explicit application state:

* the SQLite database (`DB`) with its `predictions` table,
* the React component state (`AppState`): `model`, `predictions`,
  `isLoading`, `activeTab`, `history`, `capturedImage`, plus the list of
  `Alert.alert` messages shown to the user,
* the handlers `initializeApp`, `initDatabase`, `takePicture`,
  `pickImage`, `simulateInference`, `savePrediction`, `loadHistory`,
  `clearHistory` (confirmed branch).

Nondeterminism of the environment (camera, image picker, `Math.random()`,
the wall clock, storage failures) is passed in as explicit parameters:
each `Math.random()` value is a rational in `[0,1)`, `CURRENT_TIMESTAMP`
is a natural number (SQLite DATETIME has one-second granularity, so
distinct calls may share a timestamp), and each fallible native call gets
a `Bool`/outcome parameter describing whether it throws.

A function that may propagate a JavaScript exception to its caller
returns an `Option` error component alongside the new state; a `catch`
block that swallows the exception is modelled by returning `none` there.
JS numbers are modelled as `ℚ`: the only arithmetic performed on
confidences is `a + r * b` with small decimal constants, which is exact
in binary64 up to rounding that never crosses any of the compared bounds,
so `ℚ` is faithful for the range/ordering properties proved here.
-/

namespace PlantID

/-- The 20-element label set `SPECIES_NAMES` from the source. -/
def SPECIES_NAMES : List String :=
  ["Species_1", "Species_2", "Species_3", "Species_4", "Species_5",
   "Species_6", "Species_7", "Species_8", "Species_9", "Species_10",
   "Species_11", "Species_12", "Species_13", "Species_14", "Species_15",
   "Species_16", "Species_17", "Species_18", "Species_19", "Species_20"]

/-- `interface Prediction { species: string; confidence: number }`. -/
structure Prediction where
  species : String
  confidence : ℚ
  deriving Repr, DecidableEq, Inhabited

/-- `interface HistoryItem { id; species; confidence; timestamp }` — a row
of the `predictions` table.  `timestamp` is the SQLite `CURRENT_TIMESTAMP`
at insertion time, in seconds. -/
structure HistoryItem where
  id : Nat
  species : String
  confidence : ℚ
  timestamp : Nat
  deriving Repr, DecidableEq

/-- The SQLite database `plantid.db`: whether the `predictions` table has
been created, its rows in rowid (insertion) order, and the next
`AUTOINCREMENT` id. -/
structure DB where
  schemaInit : Bool
  rows : List HistoryItem
  nextId : Nat
  deriving Repr, DecidableEq

/-- The `activeTab` state: camera, results or history. -/
inductive Tab
  | camera
  | results
  | history
  deriving Repr, DecidableEq

/-- The React component state of `PlantIDApp`, plus the database handle
and the list of `Alert.alert` texts surfaced to the user (in order). -/
structure AppState where
  db : DB
  model : Bool
  predictions : Option (List Prediction)
  isLoading : Bool
  activeTab : Tab
  history : List HistoryItem
  capturedImage : Option String
  alerts : List String
  deriving Repr, DecidableEq

/-- An exception that a storage operation could propagate to its caller.
Every handler in the source wraps storage calls in `try/catch`, so the
propagated component is `none` on every path — which is exactly what the
error-handling claims are about. -/
inductive StorageErr
  | storageWriteError
  deriving Repr, DecidableEq

/-- `CREATE TABLE IF NOT EXISTS predictions (...)`: creates the table on
first use, and is a no-op when the table already exists. -/
def execCreateTable (d : DB) : DB :=
  if d.schemaInit then d else { d with schemaInit := true }

/-- `INSERT INTO predictions (species, confidence) VALUES (?, ?)`:
appends a row with the next `AUTOINCREMENT` id and the current
`CURRENT_TIMESTAMP` (`now`). -/
def insertRow (sp : String) (conf : ℚ) (now : Nat) (d : DB) : DB :=
  { d with rows := d.rows ++ [⟨d.nextId, sp, conf, now⟩],
           nextId := d.nextId + 1 }

/-- Insert `x` into a timestamp-descending list, before the first element
whose timestamp is `≤ x.timestamp` (so an element inserted from earlier
in the scan stays before later elements with an equal timestamp). -/
def insertTsDesc (x : HistoryItem) : List HistoryItem → List HistoryItem
  | [] => [x]
  | y :: ys =>
    if y.timestamp ≤ x.timestamp then x :: y :: ys
    else y :: insertTsDesc x ys

/-- Stable sort by timestamp descending.  The source query
`ORDER BY timestamp DESC` names no secondary sort key; ties are modelled
as SQLite returns them for this single-table query: in rowid (insertion)
order, i.e. a stable sort over the table scan. -/
def sortByTsDesc : List HistoryItem → List HistoryItem
  | [] => []
  | x :: xs => insertTsDesc x (sortByTsDesc xs)

/-- `SELECT * FROM predictions ORDER BY timestamp DESC LIMIT 20`. -/
def selectRecent (d : DB) : List HistoryItem :=
  (sortByTsDesc d.rows).take 20

/-- `loadHistory`: runs `selectRecent` and stores the result in the
`history` state.  (The surrounding `try/catch` only logs on failure.) -/
def loadHistory (st : AppState) : AppState :=
  { st with history := selectRecent st.db }

/-- `savePrediction(species, confidence)`: `db.runSync` of the INSERT
inside `try/catch`.  `writeFails` says whether the underlying `runSync`
throws; the `catch` block only does `console.error`, so no exception ever
propagates (second component is always `none`) and no alert is shown.
On success it refreshes `history` via `loadHistory`. -/
def savePrediction (st : AppState) (sp : String) (conf : ℚ) (now : Nat)
    (writeFails : Bool) : AppState × Option StorageErr :=
  if writeFails then (st, none)
  else (loadHistory { st with db := insertRow sp conf now st.db }, none)

/-- `simulateInference`: `i` models
`Math.floor(Math.random() * SPECIES_NAMES.length)` and `r1 r2 r3` the
three subsequent `Math.random()` draws (each in `[0,1)`). -/
def simulateInference (i : Nat) (r1 r2 r3 : ℚ) : List Prediction :=
  let confidence1 : ℚ := 85/100 + r1 * (10/100)
  let confidence2 : ℚ := 3/100 + r2 * (5/100)
  let confidence3 : ℚ := 1/100 + r3 * (2/100)
  [⟨SPECIES_NAMES.getD i "", confidence1⟩,
   ⟨SPECIES_NAMES.getD ((i + 1) % SPECIES_NAMES.length) "", confidence2⟩,
   ⟨SPECIES_NAMES.getD ((i + 2) % SPECIES_NAMES.length) "", confidence3⟩]

/-- Outcome of `cameraRef.current.takePictureAsync(...)`: it throws, or
returns a photo without a uri, or returns a photo with a uri. -/
inductive CaptureOutcome
  | threw
  | noUri
  | ok (uri : String)
  deriving Repr, DecidableEq

/-- `takePicture`: guard `if (!cameraRef.current || !model)` shows a
"Camera not ready" alert; otherwise `setIsLoading(true)`, capture, then
the classification step.  `cls = none` models the classification step
throwing (caught by the surrounding `catch`, which alerts
"Failed to capture image" and resets `isLoading`); `cls = some (i,r1,r2,r3)`
supplies the random draws for `simulateInference`.  On success the top-1
prediction is saved (`savePrediction` swallows write failures) and the
results tab is activated. -/
def takePicture (st : AppState) (cameraReady : Bool) (cap : CaptureOutcome)
    (cls : Option (Nat × ℚ × ℚ × ℚ)) (now : Nat) (writeFails : Bool) :
    AppState :=
  if !cameraReady || !st.model then
    { st with alerts := st.alerts ++ ["Camera not ready"] }
  else
    let st1 := { st with isLoading := true }
    match cap with
    | .threw =>
      { st1 with isLoading := false,
                 alerts := st1.alerts ++ ["Failed to capture image"] }
    | .noUri => { st1 with isLoading := false }
    | .ok uri =>
      let st2 := { st1 with capturedImage := some uri }
      match cls with
      | none =>
        { st2 with isLoading := false,
                   alerts := st2.alerts ++ ["Failed to capture image"] }
      | some (i, r1, r2, r3) =>
        let preds := simulateInference i r1 r2 r3
        let st3 := { st2 with predictions := some preds }
        let st4 := (savePrediction st3 preds.headI.species
          preds.headI.confidence now writeFails).1
        { st4 with activeTab := Tab.results, isLoading := false }

/-- Outcome of `ImagePicker.launchImageLibraryAsync(...)`: it throws, the
user cancels (or no asset is returned), or an asset uri is picked. -/
inductive PickOutcome
  | threw
  | canceled
  | picked (uri : String)
  deriving Repr, DecidableEq

/-- `pickImage`: on cancel the guarded block is skipped entirely (note
`setIsLoading(true)` sits inside the guard, and there is no readiness
check on `model`); on a picked asset it classifies, saves the top-1
prediction and activates the results tab; a throw from the picker hits
the `catch`, which alerts "Failed to pick image". -/
def pickImage (st : AppState) (res : PickOutcome) (cls : Nat × ℚ × ℚ × ℚ)
    (now : Nat) (writeFails : Bool) : AppState :=
  match res with
  | .threw => { st with alerts := st.alerts ++ ["Failed to pick image"] }
  | .canceled => st
  | .picked uri =>
    let st1 := { st with isLoading := true, capturedImage := some uri }
    let preds := simulateInference cls.1 cls.2.1 cls.2.2.1 cls.2.2.2
    let st2 := { st1 with predictions := some preds }
    let st3 := (savePrediction st2 preds.headI.species
      preds.headI.confidence now writeFails).1
    { st3 with activeTab := Tab.results, isLoading := false }

/-- Press of the capture button: it carries `disabled={isLoading}`, so a
press while `isLoading` is a no-op (no error is raised or shown). -/
def capturePress (st : AppState) (cameraReady : Bool) (cap : CaptureOutcome)
    (cls : Option (Nat × ℚ × ℚ × ℚ)) (now : Nat) (writeFails : Bool) :
    AppState :=
  if st.isLoading then st
  else takePicture st cameraReady cap cls now writeFails

/-- Press of the "Choose from Gallery" button: it has no `disabled` prop,
so it always invokes `pickImage`, whatever the current state. -/
def galleryPress (st : AppState) (res : PickOutcome) (cls : Nat × ℚ × ℚ × ℚ)
    (now : Nat) (writeFails : Bool) : AppState :=
  pickImage st res cls now writeFails

/-- The results tab carries `disabled={!predictions}`: it is reachable
exactly when a non-null `predictions` is held. -/
def resultsTabEnabled (st : AppState) : Bool :=
  st.predictions.isSome

/-- `initDatabase`: `db.execSync` of CREATE TABLE IF NOT EXISTS in a
`try/catch` whose `catch` only logs — a failure is swallowed and the
caller continues. -/
def initDatabase (st : AppState) (dbFails : Bool) : AppState :=
  if dbFails then st else { st with db := execCreateTable st.db }

/-- Outcome of the camera-permission step of `initializeApp`. -/
inductive PermOutcome
  | granted
  | denied
  deriving Repr, DecidableEq

/-- `initializeApp`: permission → `initDatabase` → `loadModel`.  A denial
alerts "Permission Denied" and returns before the later steps; a database
failure is swallowed inside `initDatabase`; a `loadModel` failure is
rethrown into the outer `catch`, which alerts the generic
"Failed to initialize app" and leaves `model` false. -/
def initializeApp (st : AppState) (perm : PermOutcome) (dbFails : Bool)
    (modelFails : Bool) : AppState :=
  match perm with
  | .denied =>
    { st with alerts := st.alerts ++ ["Permission Denied"],
              isLoading := false }
  | .granted =>
    let st1 := initDatabase st dbFails
    if modelFails then
      { st1 with alerts := st1.alerts ++ ["Failed to initialize app"],
                 isLoading := false }
    else
      { st1 with model := true, isLoading := false }

/-- The confirmed ("Clear") branch of `clearHistory`:
`db.runSync` of DELETE FROM predictions, then `setHistory([])` on success;
the `catch` alerts "Failed to clear history" and leaves the database and
the `history` state untouched.  No exception propagates on either path.
(`DELETE` does not reset the `AUTOINCREMENT` sequence.) -/
def clearHistoryConfirmed (st : AppState) (deleteFails : Bool) :
    AppState × Option StorageErr :=
  if deleteFails then
    ({ st with alerts := st.alerts ++ ["Failed to clear history"] }, none)
  else
    ({ st with db := { st.db with rows := [] },
               history := [],
               alerts := st.alerts ++ ["History cleared"] }, none)

/-- The component state at mount, with a fresh database. -/
def initialState : AppState :=
  { db := { schemaInit := false, rows := [], nextId := 1 },
    model := false,
    predictions := none,
    isLoading := true,
    activeTab := Tab.camera,
    history := [],
    capturedImage := none,
    alerts := [] }

/-- A state with schema created and the model loaded, camera tab active. -/
def readyState : AppState :=
  { initialState with
    db := { schemaInit := true, rows := [], nextId := 1 },
    model := true,
    isLoading := false }

/-- Two inserts carrying the same `CURRENT_TIMESTAMP` (SQLite DATETIME
has one-second granularity, so back-to-back appends collide). -/
def dbTie : DB :=
  insertRow "Species_9" (88/100) 5
    (insertRow "Species_4" (91/100) 5
      { schemaInit := true, rows := [], nextId := 1 })

/-- Well-formedness of a classification result, per the Classifier
contract: length in `[1,3]`, strictly decreasing confidences, all
confidences in `[0,1]`, the head holding the maximum, and the dominant
confidence in `[0.85, 0.95]`. -/
def PredsWellFormed (ps : List Prediction) : Prop :=
  1 ≤ ps.length ∧ ps.length ≤ 3 ∧
  ps.Pairwise (fun a b => b.confidence < a.confidence) ∧
  (∀ p ∈ ps, 0 ≤ p.confidence ∧ p.confidence ≤ 1) ∧
  (∀ p ∈ ps, p.confidence ≤ ps.headI.confidence) ∧
  85/100 ≤ ps.headI.confidence ∧ ps.headI.confidence ≤ 95/100

/-! ## Auxiliary lemmas about the timestamp-descending sort -/

theorem mem_insertTsDesc {z x : HistoryItem} {l : List HistoryItem} :
    z ∈ insertTsDesc x l ↔ z = x ∨ z ∈ l := by
  induction l with
  | nil => simp [insertTsDesc]
  | cons y ys ih =>
    by_cases hc : y.timestamp ≤ x.timestamp
    · simp [insertTsDesc, hc, List.mem_cons]
    · simp only [insertTsDesc, if_neg hc, List.mem_cons, ih]
      tauto

theorem pairwise_insertTsDesc {x : HistoryItem} {l : List HistoryItem}
    (h : l.Pairwise (fun a b => b.timestamp ≤ a.timestamp)) :
    (insertTsDesc x l).Pairwise (fun a b => b.timestamp ≤ a.timestamp) := by
  induction l with
  | nil => simp [insertTsDesc]
  | cons y ys ih =>
    rw [List.pairwise_cons] at h
    obtain ⟨hy, hys⟩ := h
    by_cases hc : y.timestamp ≤ x.timestamp
    · rw [insertTsDesc, if_pos hc, List.pairwise_cons]
      refine ⟨?_, List.pairwise_cons.mpr ⟨hy, hys⟩⟩
      intro z hz
      rcases List.mem_cons.mp hz with rfl | hz2
      · exact hc
      · exact le_trans (hy z hz2) hc
    · rw [insertTsDesc, if_neg hc, List.pairwise_cons]
      refine ⟨?_, ih hys⟩
      intro z hz
      rcases mem_insertTsDesc.mp hz with rfl | hz2
      · exact le_of_lt (Nat.lt_of_not_le hc)
      · exact hy z hz2

theorem pairwise_sortByTsDesc (l : List HistoryItem) :
    (sortByTsDesc l).Pairwise (fun a b => b.timestamp ≤ a.timestamp) := by
  induction l with
  | nil => simp [sortByTsDesc]
  | cons x xs ih => exact pairwise_insertTsDesc ih

theorem sortByTsDesc_append_single (l : List HistoryItem)
    (x : HistoryItem) (h : ∀ r ∈ l, r.timestamp < x.timestamp) :
    ∃ t, sortByTsDesc (l ++ [x]) = x :: t := by
  induction l with
  | nil => exact ⟨[], rfl⟩
  | cons y ys ih =>
    obtain ⟨t, ht⟩ := ih (fun r hr => h r (List.mem_cons_of_mem y hr))
    have hy : y.timestamp < x.timestamp := h y (List.mem_cons_self y ys)
    refine ⟨insertTsDesc y t, ?_⟩
    rw [List.cons_append, sortByTsDesc, ht, insertTsDesc,
      if_neg (by omega)]

/-! ## Further concrete states used by the claim theorems -/

/-- A ready state with a pipeline run in flight (`isLoading`). -/
def busyState : AppState :=
  { readyState with isLoading := true }

/-- A ready state already holding a classification result, with the
camera tab active (reachable: after a successful run the user can switch
back to the camera tab without clearing the result). -/
def heldState : AppState :=
  { readyState with predictions := some [⟨"Species_1", 9/10⟩] }

/-- A ready state whose store holds the two tied-timestamp rows. -/
def historyState : AppState :=
  { readyState with db := dbTie, history := selectRecent dbTie }

/-! ## Claim theorems -/

/-- Claim C3, counterexample: the claim says `savePrediction` never
fails silently and raises `StorageWriteError` to its caller on any
underlying storage failure.  At this concrete input the underlying
INSERT fails, yet no error propagates (the component the caller sees is
`none`, not `some storageWriteError`), no alert is shown, and the state
is unchanged — the failure is completely silent. -/
theorem savePrediction_failure_is_silent :
    (savePrediction readyState "Species_1" (9/10) 0 true).2 = none ∧
    (savePrediction readyState "Species_1" (9/10) 0 true).1 = readyState := by
  exact ⟨rfl, rfl⟩

/-- Claim C3 (amended): on an underlying storage failure `savePrediction`
swallows the error (its `catch` only logs to the console): it returns the
state unchanged and propagates nothing, so the caller cannot tell that
the prediction was not durably saved.  On success it inserts a row with
the next strictly increasing, gap-free integer id (`nextId`) and the
current timestamp, and again propagates nothing. -/
theorem savePrediction_swallows_and_assigns_ids (st : AppState)
    (sp : String) (conf : ℚ) (now : Nat) :
    savePrediction st sp conf now true = (st, none) ∧
    (savePrediction st sp conf now false).2 = none ∧
    (savePrediction st sp conf now false).1.db.rows =
      st.db.rows ++ [⟨st.db.nextId, sp, conf, now⟩] ∧
    (savePrediction st sp conf now false).1.db.nextId = st.db.nextId + 1 := by
  exact ⟨rfl, rfl, rfl, rfl⟩

/-- Claim C5, counterexample: the claim says a failing `clearHistory`
raises `StorageWriteError`.  At this concrete input the DELETE fails,
but no exception propagates (the caller sees `none`); instead an error
alert is shown, and the visible history is left unchanged. -/
theorem clearHistory_failure_does_not_raise :
    (clearHistoryConfirmed historyState true).2 = none ∧
    (clearHistoryConfirmed historyState true).1.alerts =
      ["Failed to clear history"] ∧
    (clearHistoryConfirmed historyState true).1.history =
      historyState.history := by
  exact ⟨rfl, rfl, rfl⟩

/-- Claim C5 (amended): on success `clearHistory` deletes every record,
so a subsequent `selectRecent` returns the empty sequence and the
visible history is cleared; on failure no exception propagates — an
error alert is surfaced instead — and no partial deletion is observable:
the database and the visible history state are exactly unchanged (the
code clears the visible history only after the DELETE succeeded). -/
theorem clearHistory_all_or_nothing (st : AppState) :
    (clearHistoryConfirmed st false).2 = none ∧
    (clearHistoryConfirmed st false).1.db.rows = [] ∧
    selectRecent (clearHistoryConfirmed st false).1.db = [] ∧
    (clearHistoryConfirmed st false).1.history = [] ∧
    (clearHistoryConfirmed st true).2 = none ∧
    (clearHistoryConfirmed st true).1.db = st.db ∧
    (clearHistoryConfirmed st true).1.history = st.history ∧
    (clearHistoryConfirmed st true).1.alerts =
      st.alerts ++ ["Failed to clear history"] := by
  exact ⟨rfl, rfl, rfl, rfl, rfl, rfl, rfl, rfl⟩

/-- Claim C9: `initDatabase` (the `ensureSchema` of the spec) is
idempotent — when the schema already exists the call is a no-op on the
whole application state (and surfaces no error), and calling it twice
yields exactly the same state as calling it once. -/
theorem initDatabase_idempotent (st : AppState) :
    (st.db.schemaInit = true → initDatabase st false = st) ∧
    initDatabase (initDatabase st false) false = initDatabase st false := by
  constructor
  · intro h
    simp [initDatabase, execCreateTable, h]
  · simp only [initDatabase, execCreateTable, if_false, Bool.false_eq_true,
      ite_false]
    by_cases h : st.db.schemaInit <;> simp [h]

/-- Claim C9, witness: the idempotence theorem applied at a state whose
schema already exists. -/
theorem initDatabase_idempotent_witness :
    initDatabase readyState false = readyState ∧
    initDatabase (initDatabase readyState false) false =
      initDatabase readyState false :=
  ⟨(initDatabase_idempotent readyState).1 rfl,
   (initDatabase_idempotent readyState).2⟩

/-- Claim C10: a canceled gallery pick leaves the entire application
state unchanged — no classification runs, nothing is appended to the
store, and `predictions`, `capturedImage`, `isLoading`, `activeTab`,
`history` and the alert log are all exactly as before. -/
theorem pickImage_cancel_noop (st : AppState) (cls : Nat × ℚ × ℚ × ℚ)
    (now : Nat) (writeFails : Bool) :
    pickImage st PickOutcome.canceled cls now writeFails = st := rfl

/-- Claim C4, counterexample: the claim says any second acquisition
event arriving while a run is in flight is rejected with `PipelineBusy`.
At this concrete input a run is in flight (`busyState.isLoading`), yet a
gallery pick is accepted and runs to completion: it appends a row to the
store, installs new predictions, and no rejection of any kind is
surfaced (the alert log stays empty). -/
theorem galleryPress_accepted_while_busy :
    busyState.isLoading = true ∧
    (galleryPress busyState (PickOutcome.picked "img")
      (0, 1/2, 1/2, 1/2) 7 false).db.rows.length =
      busyState.db.rows.length + 1 ∧
    (galleryPress busyState (PickOutcome.picked "img")
      (0, 1/2, 1/2, 1/2) 7 false).predictions.isSome = true ∧
    (galleryPress busyState (PickOutcome.picked "img")
      (0, 1/2, 1/2, 1/2) 7 false).alerts = busyState.alerts := by
  exact ⟨rfl, rfl, rfl, rfl⟩

/-- Claim C4 (amended): the only busy-guard is the `disabled={isLoading}`
prop of the capture button — while a run is in flight a camera-capture
press is a silent no-op (no `PipelineBusy` error exists or is surfaced) —
and the gallery button has no guard at all: a gallery pick issued while a
run is in flight proceeds and appends a row to the store. -/
theorem busy_guard_partial (st : AppState) (cameraReady : Bool)
    (cap : CaptureOutcome) (cls : Option (Nat × ℚ × ℚ × ℚ))
    (cls2 : Nat × ℚ × ℚ × ℚ) (now now2 : Nat) (writeFails : Bool)
    (uri : String) (h : st.isLoading = true) :
    capturePress st cameraReady cap cls now writeFails = st ∧
    (galleryPress st (PickOutcome.picked uri) cls2 now2 false).db.rows.length
      = st.db.rows.length + 1 := by
  constructor
  · simp [capturePress, h]
  · simp [galleryPress, pickImage, savePrediction, loadHistory, insertRow]

/-- Claim C4, witness for the amended theorem, at the in-flight state. -/
theorem busy_guard_partial_witness :
    capturePress busyState true (CaptureOutcome.ok "u") none 3 false =
      busyState ∧
    (galleryPress busyState (PickOutcome.picked "u")
      (1, 1/2, 1/2, 1/2) 3 false).db.rows.length =
      busyState.db.rows.length + 1 :=
  busy_guard_partial busyState true (CaptureOutcome.ok "u") none
    (1, 1/2, 1/2, 1/2) 3 3 false "u" rfl

/-- Claim C6, counterexample: the claim says that after a classifier
failure no non-null result is held, making Results unreachable.  At this
concrete input a result from an earlier run is still held when the
classifier fails; afterwards the screen does stay on the camera tab and
nothing was written to the store, but the old predictions are still held
and the results tab is still enabled (reachable). -/
theorem classifier_failure_keeps_old_result :
    (takePicture heldState true (CaptureOutcome.ok "u") none 3 false).activeTab
      = Tab.camera ∧
    (takePicture heldState true (CaptureOutcome.ok "u") none 3 false).db
      = heldState.db ∧
    resultsTabEnabled
      (takePicture heldState true (CaptureOutcome.ok "u") none 3 false)
      = true := by
  exact ⟨rfl, rfl, rfl⟩

/-- Claim C6 (amended): when the classification step of `takePicture`
fails, nothing is written to the store, the active tab is unchanged (the
run was started from the capture screen, which therefore remains), the
history and the held predictions are unchanged, and a generic capture
error alert is shown.  In particular the results tab is unreachable
after the failure exactly when no previous result was held. -/
theorem classifier_failure_frame (st : AppState) (uri : String)
    (now : Nat) (writeFails : Bool) (h : st.model = true) :
    (takePicture st true (CaptureOutcome.ok uri) none now writeFails).db
      = st.db ∧
    (takePicture st true (CaptureOutcome.ok uri) none now writeFails).activeTab
      = st.activeTab ∧
    (takePicture st true (CaptureOutcome.ok uri) none now writeFails).predictions
      = st.predictions ∧
    (takePicture st true (CaptureOutcome.ok uri) none now writeFails).history
      = st.history ∧
    (takePicture st true (CaptureOutcome.ok uri) none now writeFails).alerts
      = st.alerts ++ ["Failed to capture image"] := by
  simp [takePicture, h]

/-- Claim C6, witness for the amended theorem: a fresh ready state (no
result held) with a failing classification step. -/
theorem classifier_failure_frame_witness :
    (takePicture readyState true (CaptureOutcome.ok "v") none 4 false).db
      = readyState.db ∧
    (takePicture readyState true (CaptureOutcome.ok "v") none 4 false).activeTab
      = readyState.activeTab ∧
    (takePicture readyState true (CaptureOutcome.ok "v") none 4 false).predictions
      = readyState.predictions ∧
    (takePicture readyState true (CaptureOutcome.ok "v") none 4 false).history
      = readyState.history ∧
    (takePicture readyState true (CaptureOutcome.ok "v") none 4 false).alerts
      = readyState.alerts ++ ["Failed to capture image"] :=
  classifier_failure_frame readyState "v" 4 false rfl

/-- Claim C7, counterexample: the claim says that when the append of the
top-1 prediction fails, the run moves to `Failed(PersistenceError)`.  At
this concrete input the append fails, yet the run terminates exactly as
a success from the point of view of every observable failure channel:
the results tab is activated with the predictions held, no alert is
shown, no error propagates — only the store silently misses the row. -/
theorem persist_failure_looks_like_success :
    (takePicture readyState true (CaptureOutcome.ok "u")
      (some (0, 1/2, 1/2, 1/2)) 9 true).activeTab = Tab.results ∧
    (takePicture readyState true (CaptureOutcome.ok "u")
      (some (0, 1/2, 1/2, 1/2)) 9 true).predictions.isSome = true ∧
    (takePicture readyState true (CaptureOutcome.ok "u")
      (some (0, 1/2, 1/2, 1/2)) 9 true).alerts = readyState.alerts ∧
    (takePicture readyState true (CaptureOutcome.ok "u")
      (some (0, 1/2, 1/2, 1/2)) 9 true).db.rows = [] := by
  exact ⟨rfl, rfl, rfl, rfl⟩

/-- Claim C7 (amended): when the append of the top-1 prediction fails,
the classification result is still held and shown — the run ends with
the results tab active, the predictions and captured image installed —
and the rest of the state (store, history, alerts) is exactly as before
the run: the persistence failure is swallowed and no error state of any
kind is entered or surfaced. -/
theorem persist_failure_still_shows_result (st : AppState) (uri : String)
    (i : Nat) (r1 r2 r3 : ℚ) (now : Nat) (h : st.model = true) :
    takePicture st true (CaptureOutcome.ok uri)
      (some (i, r1, r2, r3)) now true =
      { st with capturedImage := some uri,
                predictions := some (simulateInference i r1 r2 r3),
                activeTab := Tab.results,
                isLoading := false } := by
  simp [takePicture, savePrediction, h]

/-- Claim C7, witness for the amended theorem. -/
theorem persist_failure_still_shows_result_witness :
    takePicture readyState true (CaptureOutcome.ok "u")
      (some (0, 1/2, 1/2, 1/2)) 9 true =
      { readyState with
          capturedImage := some "u",
          predictions := some (simulateInference 0 (1/2) (1/2) (1/2)),
          activeTab := Tab.results,
          isLoading := false } :=
  persist_failure_still_shows_result readyState "u" 0 (1/2) (1/2) (1/2) 9 rfl

/-- Claim C8, counterexample: the claim says any failing initialization
step halts the sequence, surfaces a distinct error, and leaves the app
unusable.  At this concrete input the schema-creation step fails, yet
the sequence does not halt: model loading still runs and succeeds, no
error of any kind is surfaced, and the app proceeds as initialized while
the schema was never created. -/
theorem init_continues_after_db_failure :
    (initializeApp initialState PermOutcome.granted true false).model
      = true ∧
    (initializeApp initialState PermOutcome.granted true false).alerts
      = [] ∧
    (initializeApp initialState PermOutcome.granted true false).db.schemaInit
      = false := by
  exact ⟨rfl, rfl, rfl⟩

/-- Claim C8 (amended): `initializeApp` runs permission → schema → model
in that order, but only the permission step halts the sequence on
failure (with its own alert; the database is untouched and the model not
loaded).  A schema-creation failure is swallowed and the sequence
continues to model loading; a model-loading failure surfaces only the
generic initialization alert.  No full gating exists: a gallery pick
appends to the store in every state, in particular when the model never
loaded. -/
theorem init_sequence_partial_halting (st : AppState)
    (dbFails modelFails : Bool) (uri : String) (cls : Nat × ℚ × ℚ × ℚ)
    (now : Nat) :
    initializeApp st PermOutcome.denied dbFails modelFails =
      { st with alerts := st.alerts ++ ["Permission Denied"],
                isLoading := false } ∧
    initializeApp st PermOutcome.granted true false =
      { st with model := true, isLoading := false } ∧
    initializeApp st PermOutcome.granted false true =
      { st with db := execCreateTable st.db,
                alerts := st.alerts ++ ["Failed to initialize app"],
                isLoading := false } ∧
    (pickImage st (PickOutcome.picked uri) cls now false).db.rows.length
      = st.db.rows.length + 1 := by
  refine ⟨rfl, rfl, rfl, ?_⟩
  simp [pickImage, savePrediction, loadHistory, insertRow]

/-- A three-element prediction list whose confidences sit in the bands
`[0.85, 0.95)`, `[0.03, 0.08)`, `[0.01, 0.03)` is well formed. -/
theorem predsWellFormed_of_bands (s1 s2 s3 : String) (c1 c2 c3 : ℚ)
    (h1a : 85/100 ≤ c1) (h1b : c1 < 95/100)
    (h2a : 3/100 ≤ c2) (h2b : c2 < 8/100)
    (h3a : 1/100 ≤ c3) (h3b : c3 < 3/100) :
    PredsWellFormed [⟨s1, c1⟩, ⟨s2, c2⟩, ⟨s3, c3⟩] := by
  unfold PredsWellFormed
  refine ⟨by simp, by simp, ?_, ?_, ?_, ?_, ?_⟩
  · refine List.Pairwise.cons ?_ (List.Pairwise.cons ?_ ?_)
    · intro b hb
      rcases List.mem_cons.mp hb with rfl | hb2
      · show c2 < c1; linarith
      · rcases List.mem_singleton.mp hb2 with rfl
        show c3 < c1; linarith
    · intro b hb
      rcases List.mem_singleton.mp hb with rfl
      show c3 < c2; linarith
    · exact List.pairwise_singleton _ _
  · intro p hp
    rcases List.mem_cons.mp hp with rfl | hp2
    · refine ⟨by show (0:ℚ) ≤ c1; linarith, by show c1 ≤ 1; linarith⟩
    · rcases List.mem_cons.mp hp2 with rfl | hp3
      · refine ⟨by show (0:ℚ) ≤ c2; linarith, by show c2 ≤ 1; linarith⟩
      · rcases List.mem_singleton.mp hp3 with rfl
        refine ⟨by show (0:ℚ) ≤ c3; linarith, by show c3 ≤ 1; linarith⟩
  · intro p hp
    rcases List.mem_cons.mp hp with rfl | hp2
    · exact le_refl _
    · rcases List.mem_cons.mp hp2 with rfl | hp3
      · show c2 ≤ c1; linarith
      · rcases List.mem_singleton.mp hp3 with rfl
        show c3 ≤ c1; linarith
  · show 85/100 ≤ c1; exact h1a
  · show c1 ≤ 95/100; linarith

/-- Claim C1: the result of `simulateInference` (run with any in-range
random draws) has length in `[1,3]`, strictly decreasing confidences all
lying in `[0,1]` with the first element holding the maximum, the
dominant confidence in `[0.85, 0.95]`, the two secondary predictions in
the non-overlapping strictly lower bands `[0.03, 0.08)` and
`[0.01, 0.03)`, and labels drawn cyclically from `SPECIES_NAMES`
starting at the chosen index. -/
theorem simulateInference_contract (i : Nat) (r1 r2 r3 : ℚ)
    (hi : i < 20) (h1a : 0 ≤ r1) (h1b : r1 < 1)
    (h2a : 0 ≤ r2) (h2b : r2 < 1) (h3a : 0 ≤ r3) (h3b : r3 < 1) :
    PredsWellFormed (simulateInference i r1 r2 r3) ∧
    (simulateInference i r1 r2 r3).map Prediction.species =
      [SPECIES_NAMES.getD (i % 20) "",
       SPECIES_NAMES.getD ((i + 1) % 20) "",
       SPECIES_NAMES.getD ((i + 2) % 20) ""] ∧
    ∃ p1 p2 p3, simulateInference i r1 r2 r3 = [p1, p2, p3] ∧
      85/100 ≤ p1.confidence ∧ p1.confidence < 95/100 ∧
      3/100 ≤ p2.confidence ∧ p2.confidence < 8/100 ∧
      1/100 ≤ p3.confidence ∧ p3.confidence < 3/100 := by
  have hc1a : (85:ℚ)/100 ≤ 85/100 + r1 * (10/100) := by linarith
  have hc1b : (85:ℚ)/100 + r1 * (10/100) < 95/100 := by linarith
  have hc2a : (3:ℚ)/100 ≤ 3/100 + r2 * (5/100) := by linarith
  have hc2b : (3:ℚ)/100 + r2 * (5/100) < 8/100 := by linarith
  have hc3a : (1:ℚ)/100 ≤ 1/100 + r3 * (2/100) := by linarith
  have hc3b : (1:ℚ)/100 + r3 * (2/100) < 3/100 := by linarith
  refine ⟨?_, ?_, ?_⟩
  · exact predsWellFormed_of_bands _ _ _ _ _ _ hc1a hc1b hc2a hc2b hc3a hc3b
  · have hmod : i % 20 = i := Nat.mod_eq_of_lt hi
    simp [simulateInference, hmod, SPECIES_NAMES]
  · exact ⟨_, _, _, rfl, hc1a, hc1b, hc2a, hc2b, hc3a, hc3b⟩

/-- Claim C1, witness: the contract applied at index 0 with all three
random draws equal to one half. -/
theorem simulateInference_contract_witness :
    PredsWellFormed (simulateInference 0 (1/2) (1/2) (1/2)) ∧
    (simulateInference 0 (1/2) (1/2) (1/2)).map Prediction.species =
      [SPECIES_NAMES.getD (0 % 20) "",
       SPECIES_NAMES.getD ((0 + 1) % 20) "",
       SPECIES_NAMES.getD ((0 + 2) % 20) ""] ∧
    ∃ p1 p2 p3, simulateInference 0 (1/2) (1/2) (1/2) = [p1, p2, p3] ∧
      85/100 ≤ p1.confidence ∧ p1.confidence < 95/100 ∧
      3/100 ≤ p2.confidence ∧ p2.confidence < 8/100 ∧
      1/100 ≤ p3.confidence ∧ p3.confidence < 3/100 :=
  simulateInference_contract 0 (1/2) (1/2) (1/2) (by norm_num)
    (by norm_num) (by norm_num) (by norm_num) (by norm_num)
    (by norm_num) (by norm_num)

/-- Claim C2, counterexample: the claim says ties on `createdAt` are
broken by id descending, and that an append is immediately visible at
the head.  `dbTie` appends Species_4 and then Species_9 within the same
one-second timestamp (SQLite DATETIME granularity).  The query
`ORDER BY timestamp DESC` names no secondary key, so the tied rows come
back in rowid (insertion) order: ids ascending, with the EARLIER append
Species_4 at the head — not id descending, and not the just-appended
record at the head. -/
theorem listRecent_tie_order_ascending :
    (selectRecent dbTie).map HistoryItem.id = [1, 2] ∧
    (selectRecent dbTie).head?.map HistoryItem.species =
      some "Species_4" := by
  exact ⟨rfl, rfl⟩

/-- Claim C2 (amended): `selectRecent` returns records ordered by
timestamp descending, bounded by the hard-coded limit of 20, with ties
returned in insertion (id ascending) order; an appended record whose
timestamp is strictly greater than that of every existing record is
returned at the head of the next query, with matching species label and
confidence. -/
theorem listRecent_contract (d : DB) (sp : String) (conf : ℚ) (now : Nat)
    (hfresh : ∀ r ∈ d.rows, r.timestamp < now) :
    (selectRecent d).Pairwise (fun a b => b.timestamp ≤ a.timestamp) ∧
    (selectRecent d).length ≤ 20 ∧
    (selectRecent (insertRow sp conf now d)).head? =
      some ⟨d.nextId, sp, conf, now⟩ := by
  refine ⟨?_, ?_, ?_⟩
  · exact List.Pairwise.sublist (List.take_sublist 20 (sortByTsDesc d.rows))
      (pairwise_sortByTsDesc d.rows)
  · exact List.length_take_le 20 (sortByTsDesc d.rows)
  · obtain ⟨t, ht⟩ :=
      sortByTsDesc_append_single d.rows ⟨d.nextId, sp, conf, now⟩ hfresh
    show ((sortByTsDesc
      (d.rows ++ [⟨d.nextId, sp, conf, now⟩])).take 20).head? = _
    rw [ht]
    rfl

/-- Claim C2, witness: the contract applied to the empty store, with an
append at timestamp 1. -/
theorem listRecent_contract_witness :
    (selectRecent readyState.db).Pairwise
      (fun a b => b.timestamp ≤ a.timestamp) ∧
    (selectRecent readyState.db).length ≤ 20 ∧
    (selectRecent (insertRow "Species_1" (9/10) 1 readyState.db)).head? =
      some ⟨1, "Species_1", 9/10, 1⟩ :=
  listRecent_contract readyState.db "Species_1" (9/10) 1 (by simp [readyState, initialState])

end PlantID
